import Mathlib

/-!
Shallow embedding of the iis storage/consistency core.

Two components are embedded from the repository source:
* the DAL graph-edge layer (`FollowUser`, `BlockUser`, `insertChainOrUpdate`,
  `GetFollowingList`, `IsBlocking`, `IsFollowing`) from the `dal` package, and
* the `TokenBucket` rate limiter from the `driver` package.

The command executor (`Do`/`NewRequest`), the canonical edge-key derivation
helpers (`makeFollowID` and friends) and the tiny string parsers (`atoi64`,
`atob`) are declared and called by the source in this repository but their
bodies are not part of the provided sources; they are modelled from the spec
(sections 4.3, 4.5, 6) and carry a doc comment saying so.

Wall-clock time is passed explicitly (unix seconds in the DAL layer,
nanoseconds in the token bucket).  The traversal's 200 ms wall-clock budget is
modelled as explicit fuel: running out of fuel corresponds to the budget
expiring.  Go `int64` arithmetic is modelled on unbounded `Int` (no claim here
depends on 64-bit wrap-around), and Go's truncating integer division is
`Int.tdiv`.
-/

namespace Iis

/-- Character-list version of Go's `strings.HasPrefix`. -/
def listStarts : List Char → List Char → Bool
  | _, [] => true
  | [], _ :: _ => false
  | c :: cs, d :: ds => c = d && listStarts cs ds

/-- Go's `strings.HasPrefix(s, p)`. -/
def strStarts (s p : String) : Bool :=
  listStarts s.data p.data

/-- Go's `strconv.FormatBool`. -/
def fmtBool (b : Bool) : String :=
  if b then "true" else "false"

/-- Go's `strings.Split(s, ",")` on the character list of `s`:
splits at every comma, keeping empty segments (`Split("", ",") = [""]`). -/
def splitComma : List Char → List (List Char)
  | [] => [[]]
  | c :: t =>
    if c = ',' then [] :: splitComma t
    else
      match splitComma t with
      | [] => [[c]]
      | h :: r => (c :: h) :: r

/-- Decimal digit accumulator: `none` as soon as a non-digit appears. -/
def digitsAux (l : List Char) : Option Nat :=
  l.foldl
    (fun acc c =>
      acc.bind fun n =>
        if '0' ≤ c ∧ c ≤ '9' then some (n * 10 + (c.toNat - '0'.toNat)) else none)
    (some 0)

/-- Modelled from the spec: the `atoi64` helper used by the chain walk is not
in the provided sources; per §6 it parses the `<decimal-unix-seconds>` half of
the extras encoding, yielding 0 on malformed input (Go `ParseInt` failure is
swallowed). -/
def atoi64 (l : List Char) : Int :=
  match l with
  | '-' :: t => -(Int.ofNat ((digitsAux t).getD 0))
  | _ => Int.ofNat ((digitsAux l).getD 0)

/-- Modelled from the spec: the `atob` helper is not in the provided sources;
per §6 the boolean half of a toggle encoding is the lowercase literal, so only
the exact text `true` reads back as `true`. -/
def atob (l : List Char) : Bool :=
  l = "true".data

/-- Chain record (`model.Article` restricted to the fields the embedded
operations read or write). -/
structure Article where
  id : String
  nextID : String
  cmd : String
  extras : List (String × String)
  createTime : Int
  media : String
  deriving DecidableEq

/-- The `model.Cmd` constants used by the edge layer. -/
def CmdFollow : String := "follow"

/-- `model.CmdFollowed`. -/
def CmdFollowed : String := "followed"

/-- `model.CmdBlock`. -/
def CmdBlock : String := "block"

/-- `model.CmdLike`. -/
def CmdLike : String := "like"

/-- Lookup in a string-keyed association list (first binding wins; `setKV`
always prepends, so this realises map semantics). -/
def getKV {α : Type} (l : List (String × α)) (k : String) : Option α :=
  match l with
  | [] => none
  | (k', v) :: t => if k' = k then some v else getKV t k

/-- Map-style insert/overwrite on an association list. -/
def setKV {α : Type} (l : List (String × α)) (k : String) (v : α) :
    List (String × α) :=
  (k, v) :: l

/-- The persisted article table (`m.db` restricted to article keys). -/
abbrev ArticleStore := List (String × Article)

/-- User aggregate (the counters touched by `DoUpdateUser`). -/
structure User where
  followers : Int
  followings : Int
  unread : Int
  deriving DecidableEq

/-- The persisted user table. -/
abbrev UserStore := List (String × User)

/-- Full store state threaded through the DAL operations. -/
structure State where
  articles : ArticleStore
  users : UserStore
  deriving DecidableEq

/-- Error taxonomy (spec §7) restricted to the outcomes the embedded
operations can produce: `notExisted` is `model.ErrNotExisted`,
`alreadyExisted` is the duplicate-insert failure, `blocked` is the
`follow/to-blocked` policy error. -/
inductive Err where
  | notExisted
  | alreadyExisted
  | blocked
  deriving DecidableEq

/-- Modelled from the spec: the executor's update-node path
(`Do(NewRequest(DoUpdateArticle, "ID", id, "SetExtraKey", k,
"SetExtraValue", v))`, spec §4.3) is not in the provided sources.  It loads
the node, fails with not-existed if absent, upserts the extras key, persists,
and returns the previous value of that key (Go map indexing yields `""` for a
missing key). -/
def doUpdateArticle (s : ArticleStore) (id k v : String) :
    Except Err (ArticleStore × String) :=
  match getKV s id with
  | none => .error .notExisted
  | some a =>
      .ok (setKV s id { a with extras := setKV a.extras k v },
           (getKV a.extras k).getD "")

/-- Modelled from the spec: the executor's insert-node path
(`Do(NewRequest(DoInsertArticle, "RootID", root, "Article", a))`, spec §4.3)
is not in the provided sources.  It fails with already-existed on a duplicate
key, otherwise links the node in at the head of the root's chain, creating the
head record lazily (spec §3 lifecycle). -/
def doInsertArticle (s : ArticleStore) (rootID : String) (a : Article) :
    Except Err ArticleStore :=
  if (getKV s a.id).isSome then .error .alreadyExisted
  else
    match getKV s rootID with
    | some root =>
        .ok (setKV (setKV s a.id { a with nextID := root.nextID }) rootID
              { root with nextID := a.id })
    | none =>
        .ok (setKV (setKV s a.id { a with nextID := "" }) rootID
              { id := rootID, nextID := a.id, cmd := "", extras := [],
                createTime := a.createTime, media := "" })

/-- Counter deltas accepted by the executor's update-user path. -/
inductive UserDelta where
  | incDecFollowers (inc : Bool)
  | incDecFollowings (inc : Bool)
  | incUnread

/-- Apply a counter delta to a user aggregate. -/
def applyDelta (u : User) : UserDelta → User
  | .incDecFollowers inc =>
      { u with followers := u.followers + (if inc then 1 else -1) }
  | .incDecFollowings inc =>
      { u with followings := u.followings + (if inc then 1 else -1) }
  | .incUnread => { u with unread := u.unread + 1 }

/-- Modelled from the spec: the executor's update-user-aggregate path
(`Do(NewRequest(DoUpdateUser, ...))`, spec §4.3) is not in the provided
sources.  It read-modify-writes the user record, failing with not-existed if
absent. -/
def doUpdateUser (s : UserStore) (id : String) (d : UserDelta) :
    Except Err UserStore :=
  match getKV s id with
  | none => .error .notExisted
  | some u => .ok (setKV s id (applyDelta u d))

/-- Modelled from the spec: `makeFollowID` is not in the provided sources.
Per spec §4.5 it derives the canonical follow-edge key as a pure function of
the ordered pair; the format places edge nodes in the `u/` namespace that the
chain walk recognises as chain-member keys. -/
def makeFollowID (frm toU : String) : String :=
  "u/" ++ frm ++ "/follow/" ++ toU

/-- Modelled from the spec: `makeFollowedID`, the reverse-edge key (owner
first). -/
def makeFollowedID (frm toU : String) : String :=
  "u/" ++ frm ++ "/followed/" ++ toU

/-- Modelled from the spec: `makeBlockID`, the block-edge key. -/
def makeBlockID (frm toU : String) : String :=
  "u/" ++ frm ++ "/block/" ++ toU

/-- Modelled from the spec: `ik.NewID(ik.IDFollowing, u).String()`, the root
key of `u`'s following chain.  The concrete text is opaque in the spec; all
that matters is that it is deterministic per user and outside the `u/`
chain-member namespace. -/
def followingRootID (u : String) : String :=
  "F:" ++ u

/-- Modelled from the spec: `ik.NewID(ik.IDFollower, u).String()`, the root
key of `u`'s follower chain. -/
def followerRootID (u : String) : String :=
  "W:" ++ u

/-- Modelled from the spec: `ik.NewID(ik.IDBlacklist, u).String()`, the root
key of `u`'s block chain. -/
def blacklistRootID (u : String) : String :=
  "B:" ++ u

/-- `dal.IsBlocking` (source): the block edge exists and its `block` extras
value is exactly `true`. -/
def IsBlocking (s : ArticleStore) (frm toU : String) : Bool :=
  match getKV s (makeBlockID frm toU) with
  | none => false
  | some p => ((getKV p.extras "block").getD "") = "true"

/-- `dal.IsFollowing` (source): the follow edge exists and its value for the
counterpart key starts with `true`. -/
def IsFollowing (s : ArticleStore) (frm toU : String) : Bool :=
  match getKV s (makeFollowID frm toU) with
  | none => false
  | some p => strStarts ((getKV p.extras toU).getD "") "true"

/-- `dal.insertChainOrUpdate` (source): upsert the toggle key on the canonical
edge node; on not-existed fall back to inserting a fresh node (copying the
target's media for like edges) into the given chain.  Returns whether the
stored value actually changed together with the resulting store. -/
def insertChainOrUpdate (arts : ArticleStore) (aid chainid toU cmd : String)
    (value : Bool) (now : Int) : Bool × Except Err ArticleStore :=
  let state := fmtBool value
  match doUpdateArticle arts aid cmd state with
  | .error .notExisted =>
      let media :=
        if cmd = CmdLike then
          match getKV arts toU with
          | some toa => toa.media
          | none => ""
        else ""
      (true, doInsertArticle arts chainid
        { id := aid, nextID := "", cmd := cmd,
          extras := [("to", toU), (cmd, state)], createTime := now,
          media := media })
  | .error e => (false, .error e)
  | .ok (arts1, old) => (old != state, .ok arts1)

/-- `dal.fromFollowToNotifyTo` (source): bump the counterpart's follower
counter, then record the reverse `followed` edge in the counterpart's
follower chain.  A failing counter update skips the chain write (the caller
fires this asynchronously and ignores the error). -/
def fromFollowToNotifyTo (st : State) (frm toU : String) (following : Bool)
    (now : Int) : State :=
  match doUpdateUser st.users toU (.incDecFollowers following) with
  | .error _ => st
  | .ok us =>
      let st1 : State := { st with users := us }
      match (insertChainOrUpdate st1.articles (makeFollowedID toU frm)
          (followerRootID toU) frm CmdFollowed following now).2 with
      | .error _ => st1
      | .ok arts => { st1 with articles := arts }

/-- The deferred goroutine body of `dal.FollowUser` (source lines 174-179):
bump the actor's following counter (result ignored) and, unless the target is
a hashtag, notify the counterpart.  It runs exactly when the primary mutation
succeeded and reported a real change. -/
def applyFollowEffects (st : State) (frm toU : String) (following : Bool)
    (now : Int) : State :=
  let users1 :=
    match doUpdateUser st.users frm (.incDecFollowings following) with
    | .ok us => us
    | .error _ => st.users
  let st1 : State := { st with users := users1 }
  if strStarts toU "#" then st1
  else fromFollowToNotifyTo st1 frm toU following now

/-- What `dal.FollowUser` leaves behind: the store after the call (with the
deferred side effects applied), the returned error, and the internal
`updated` flag that gates the side effects. -/
structure FUResult where
  state : State
  err : Option Err
  updated : Bool
  deriving DecidableEq

/-- `dal.FollowUser` (source): veto a follow when the target blocks the actor;
otherwise upsert `extras[toU] = "<bool>,<unix>"` on the canonical follow node,
falling back to inserting a fresh node into the actor's following chain, and
dispatch counter/notification side effects only on a real change. -/
def FollowUser (st : State) (now : Int) (frm toU : String) (following : Bool) :
    FUResult :=
  let followID := makeFollowID frm toU
  if following && IsBlocking st.articles toU frm then
    { state := st, err := some .blocked, updated := false }
  else
    let extraValue := fmtBool following ++ "," ++ toString now
    match doUpdateArticle st.articles followID toU extraValue with
    | .error .notExisted =>
        match doInsertArticle st.articles (followingRootID frm)
            { id := followID, nextID := "", cmd := CmdFollow,
              extras := [(toU, extraValue)], createTime := now,
              media := "" } with
        | .error e => { state := st, err := some e, updated := true }
        | .ok arts1 =>
            { state :=
                applyFollowEffects { st with articles := arts1 } frm toU
                  following now,
              err := none, updated := true }
    | .error e => { state := st, err := some e, updated := false }
    | .ok (arts1, old) =>
        let upd := !(strStarts old (fmtBool following))
        let st1 : State := { st with articles := arts1 }
        { state := if upd then applyFollowEffects st1 frm toU following now
                   else st1,
          err := none, updated := upd }

/-- `dal.BlockUser` (source): when blocking, first force-unfollow the target
from the actor (errors only logged), then toggle the block edge in the
actor's blacklist chain. -/
def BlockUser (st : State) (now : Int) (frm toU : String) (blocking : Bool) :
    State × Option Err :=
  let st1 := if blocking then (FollowUser st now toU frm false).state else st
  match (insertChainOrUpdate st1.articles (makeBlockID frm toU)
      (blacklistRootID frm) toU CmdBlock blocking now).2 with
  | .error e => (st1, some e)
  | .ok arts => ({ st1 with articles := arts }, none)

/-- `dal.FollowingState` (source): one row of a follow/follower/block/like
listing. -/
structure FollowingState where
  id : String
  time : Int
  followed : Bool
  revFollowed : Bool
  liked : Bool
  blocked : Bool
  deriving DecidableEq

/-- One extras binding of a follow node, decoded as in the source walk: split
at commas, skip it unless exactly two parts, else read back the boolean and
the timestamp. -/
def entryOfExtra (p : String × String) : Option FollowingState :=
  match splitComma p.2.data with
  | [b, t] =>
      some { id := p.1, time := atoi64 t, followed := atob b,
             revFollowed := false, liked := false, blocked := false }
  | _ => none

/-- The result rows one loaded chain node expands to (source lines 341-361):
a follow node yields one row per well-formed extras binding, any other node
yields a single row read from its fixed extras keys. -/
def entriesOf (a : Article) : List FollowingState :=
  if a.cmd = CmdFollow then
    a.extras.filterMap entryOfExtra
  else
    [{ id := (getKV a.extras "to").getD "", time := a.createTime,
       followed := false,
       revFollowed := ((getKV a.extras "followed").getD "") = "true",
       liked := ((getKV a.extras "like").getD "") = "true",
       blocked := ((getKV a.extras "block").getD "") = "true" }]

/-- The cursor loop of `dal.GetFollowingList` (source lines 329-364).  `fuel`
models the 200 ms wall-clock budget: exhausting it is the `Break out slow
walk` exit.  The walk also stops when `n` rows are collected, when the cursor
leaves the `u/` chain-member namespace, or when the cursor's record cannot be
loaded. -/
def followWalk (arts : ArticleStore) (n : Nat) :
    Nat → String → List FollowingState → List FollowingState × String
  | 0, cursor, res => (res, cursor)
  | fuel + 1, cursor, res =>
    if res.length < n then
      if strStarts cursor "u/" then
        match getKV arts cursor with
        | none => (res, cursor)
        | some a => followWalk arts n fuel a.nextID (res ++ entriesOf a)
      else (res, cursor)
    else (res, cursor)

/-- Insert one row into a list sorted by strictly descending time, as the
source's final `sort.Slice(res, res[i].Time.After(res[j].Time))` orders it. -/
def insertDesc (x : FollowingState) :
    List FollowingState → List FollowingState
  | [] => [x]
  | y :: ys => if x.time > y.time then x :: y :: ys else y :: insertDesc x ys

/-- Sort rows by descending time (the source's closing `sort.Slice`). -/
def sortDesc (l : List FollowingState) : List FollowingState :=
  l.foldr insertDesc []

/-- `dal.GetFollowingList` (source): resolve an empty cursor through the
chain's head record (absent head means an empty result), walk the chain, and
return the rows sorted newest-first together with the resume cursor. -/
def GetFollowingList (arts : ArticleStore) (fuel : Nat) (chain cursor : String)
    (n : Nat) : List FollowingState × String :=
  match (if cursor = "" then (getKV arts chain).map Article.nextID
         else some cursor) with
  | none => ([], "")
  | some c =>
      let r := followWalk arts n fuel c []
      (sortDesc r.1, r.2)

/-- `driver.TokenBucket` (source): times are nanoseconds, matching Go's
`time.Duration`/`time.Time` internals. -/
structure TokenBucket where
  speed : Int
  capacity : Int
  maxCapacity : Int
  timeoutNs : Int
  lastConsumeNs : Int
  deriving DecidableEq

/-- `driver.NewTokenBucket` (source): the parsed `<speed>x<wait>/<max>`
configuration plus the construction instant; `capacity` starts at its Go zero
value 0 and `lastConsume` at the construction time. -/
def NewTokenBucket (speed waitSec maxCap t0 : Int) : TokenBucket :=
  { speed := speed, capacity := 0, maxCapacity := maxCap,
    timeoutNs := waitSec * 1000000000, lastConsumeNs := t0 }

/-- The refill step at the top of `Consume` (source lines 267-273): elapsed
whole milliseconds (Go division truncates toward zero) times speed over 1000,
added to the capacity — negative when the clock is behind `lastConsume` — then
capped above at `maxCapacity`. -/
def TokenBucket.refillCap (tb : TokenBucket) (nowNs : Int) : Int :=
  let ms := Int.tdiv (nowNs - tb.lastConsumeNs) 1000000
  let c := tb.capacity + Int.tdiv (ms * tb.speed) 1000
  if c > tb.maxCapacity then tb.maxCapacity else c

/-- The deficit wait of `Consume` (source lines 282-283):
`time.Duration(float64(n-capacity)/float64(speed)*1000) * time.Millisecond`.
The float computation is modelled exactly: converting the float to a
`Duration` truncates toward zero, which on exactly representable values is
`Int.tdiv` of the scaled deficit by the speed. -/
def TokenBucket.sleepNs (tb : TokenBucket) (nowNs n : Int) : Int :=
  Int.tdiv ((n - tb.refillCap nowNs) * 1000) tb.speed * 1000000

/-- `driver.TokenBucket.Consume` (source): zero speed short-circuits to
success; otherwise refill, serve instantly when the request fits, reject
(leaving the refilled capacity in place) when the deficit wait exceeds the
timeout, else drain to zero and advance the bookkeeping clock by the wait. -/
def TokenBucket.Consume (tb : TokenBucket) (nowNs n : Int) :
    TokenBucket × Bool :=
  if tb.speed = 0 then (tb, true)
  else
    let c := tb.refillCap nowNs
    if n ≤ c then
      ({ tb with capacity := c - n, lastConsumeNs := nowNs }, true)
    else if tb.timeoutNs < tb.sleepNs nowNs n then
      ({ tb with capacity := c }, false)
    else
      ({ tb with capacity := 0,
                 lastConsumeNs := nowNs + tb.sleepNs nowNs n }, true)

/-- The reachable bucket states: constructed by `NewTokenBucket` and evolved
by `Consume` calls whose observation instants never run backwards (Go's
monotonic clock); the accompanying instant records when the state was last
observed. -/
inductive ReachedTB : TokenBucket → Int → Prop where
  | init (speed waitSec maxCap t0 : Int) :
      ReachedTB (NewTokenBucket speed waitSec maxCap t0) t0
  | step {tb : TokenBucket} {t : Int} (now n : Int) (h : ReachedTB tb t)
      (hle : t ≤ now) : ReachedTB (TokenBucket.Consume tb now n).1 now

/-- The spec's §6 wire format for toggle-edge extras values: a lowercase
boolean, one comma, and a nonempty run of decimal digits.  This follows the
spec's words, to be compared with what the source actually stores. -/
def specToggleEncoding (v : String) : Bool :=
  match splitComma v.data with
  | [b, t] =>
      (b == "true".data || b == "false".data) && !t.isEmpty &&
        t.all fun c => decide ('0' ≤ c ∧ c ≤ '9')
  | _ => false

/-! ### Association-list and key-distinctness lemmas -/

@[simp]
theorem getKV_setKV_same {α : Type} (l : List (String × α)) (k : String)
    (v : α) : getKV (setKV l k v) k = some v := by
  simp [getKV, setKV]

theorem getKV_setKV_ne {α : Type} (l : List (String × α)) {k k' : String}
    (v : α) (h : k' ≠ k) : getKV (setKV l k' v) k = getKV l k := by
  simp [getKV, setKV, h]

theorem getKV_mem {α : Type} {l : List (String × α)} {k : String} {v : α}
    (h : getKV l k = some v) : (k, v) ∈ l := by
  induction l with
  | nil => simp [getKV] at h
  | cons p t ih =>
      obtain ⟨k', v'⟩ := p
      by_cases hk : k' = k
      · subst hk
        simp [getKV] at h
        simp [h]
      · simp [getKV, hk] at h
        exact List.mem_cons_of_mem _ (ih h)

theorem str_ne_of_len {a b : String} (h : a.length ≠ b.length) : a ≠ b :=
  fun e => h (by rw [e])

theorem strStarts_ne {a b p : String}
    (h : strStarts a p ≠ strStarts b p) : a ≠ b :=
  fun e => h (by rw [e])

theorem len_makeFollowID (a b : String) :
    (makeFollowID a b).length = 10 + a.length + b.length := by
  have h1 : ("u/" : String).length = 2 := rfl
  have h2 : ("/follow/" : String).length = 8 := rfl
  simp only [makeFollowID, String.length_append, h1, h2]
  omega

theorem len_makeFollowedID (a b : String) :
    (makeFollowedID a b).length = 12 + a.length + b.length := by
  have h1 : ("u/" : String).length = 2 := rfl
  have h2 : ("/followed/" : String).length = 10 := rfl
  simp only [makeFollowedID, String.length_append, h1, h2]
  omega

theorem len_makeBlockID (a b : String) :
    (makeBlockID a b).length = 9 + a.length + b.length := by
  have h1 : ("u/" : String).length = 2 := rfl
  have h2 : ("/block/" : String).length = 7 := rfl
  simp only [makeBlockID, String.length_append, h1, h2]
  omega

theorem strStarts_u_append (x y : String) :
    strStarts ("u/" ++ x ++ y) "u/" = true := by
  have h1 : ("u/" : String).data = ['u', '/'] := rfl
  simp [strStarts, String.data_append, h1, listStarts]

theorem strStarts_makeFollowID (a b : String) :
    strStarts (makeFollowID a b) "u/" = true := by
  have h := strStarts_u_append a ("/follow/" ++ b)
  simpa [makeFollowID, String.append_assoc] using h

theorem strStarts_makeFollowedID (a b : String) :
    strStarts (makeFollowedID a b) "u/" = true := by
  have h := strStarts_u_append a ("/followed/" ++ b)
  simpa [makeFollowedID, String.append_assoc] using h

theorem strStarts_makeBlockID (a b : String) :
    strStarts (makeBlockID a b) "u/" = true := by
  have h := strStarts_u_append a ("/block/" ++ b)
  simpa [makeBlockID, String.append_assoc] using h

theorem strStarts_root_F (u : String) :
    strStarts (followingRootID u) "u/" = false := by
  have h1 : ("u/" : String).data = ['u', '/'] := rfl
  have h2 : ("F:" : String).data = ['F', ':'] := rfl
  simp [followingRootID, strStarts, String.data_append, h1, h2, listStarts]

theorem strStarts_root_W (u : String) :
    strStarts (followerRootID u) "u/" = false := by
  have h1 : ("u/" : String).data = ['u', '/'] := rfl
  have h2 : ("W:" : String).data = ['W', ':'] := rfl
  simp [followerRootID, strStarts, String.data_append, h1, h2, listStarts]

theorem strStarts_root_B (u : String) :
    strStarts (blacklistRootID u) "u/" = false := by
  have h1 : ("u/" : String).data = ['u', '/'] := rfl
  have h2 : ("B:" : String).data = ['B', ':'] := rfl
  simp [blacklistRootID, strStarts, String.data_append, h1, h2, listStarts]

theorem followID_ne_followingRoot (a b c : String) :
    makeFollowID a b ≠ followingRootID c :=
  strStarts_ne (by rw [strStarts_makeFollowID, strStarts_root_F]; simp)

theorem followID_ne_followerRoot (a b c : String) :
    makeFollowID a b ≠ followerRootID c :=
  strStarts_ne (by rw [strStarts_makeFollowID, strStarts_root_W]; simp)

theorem blockID_ne_followingRoot (a b c : String) :
    makeBlockID a b ≠ followingRootID c :=
  strStarts_ne (by rw [strStarts_makeBlockID, strStarts_root_F]; simp)

theorem blockID_ne_followerRoot (a b c : String) :
    makeBlockID a b ≠ followerRootID c :=
  strStarts_ne (by rw [strStarts_makeBlockID, strStarts_root_W]; simp)

theorem followID_ne_followedID (a b : String) :
    makeFollowID a b ≠ makeFollowedID b a :=
  str_ne_of_len (by rw [len_makeFollowID, len_makeFollowedID]; omega)

theorem blockID_ne_followID (a b : String) :
    makeBlockID b a ≠ makeFollowID a b :=
  str_ne_of_len (by rw [len_makeBlockID, len_makeFollowID]; omega)

theorem blockID_ne_followedID (a b : String) :
    makeBlockID b a ≠ makeFollowedID b a :=
  str_ne_of_len (by rw [len_makeBlockID, len_makeFollowedID]; omega)

/-! ### C1: a block on the follow target vetoes the follow before any
mutation -/

/-- C1: when the follow target has blocked the actor, `FollowUser` with
`following = true` returns the distinct policy error and the entire store —
articles, user counters — is exactly what it was: no chain node is written or
updated and no side effect is dispatched. -/
theorem followUser_blocked_veto (st : State) (now : Int) (frm toU : String)
    (h : IsBlocking st.articles toU frm = true) :
    FollowUser st now frm toU true =
      { state := st, err := some .blocked, updated := false } := by
  simp [FollowUser, h]

/-- Store for the C1 witness: bob has blocked alice. -/
def c1store : State :=
  { articles := [(makeBlockID "bob" "alice",
      { id := "u/bob/block/alice", nextID := "", cmd := "block",
        extras := [("to", "alice"), ("block", "true")], createTime := 1,
        media := "" })],
    users := [("alice", ⟨0, 0, 0⟩), ("bob", ⟨0, 0, 0⟩)] }

theorem followUser_blocked_veto_witness :
    IsBlocking c1store.articles "bob" "alice" = true ∧
    FollowUser c1store 7 "alice" "bob" true =
      { state := c1store, err := some .blocked, updated := false } :=
  ⟨by decide, followUser_blocked_veto c1store 7 "alice" "bob" (by decide)⟩

/-! ### C7: the refill step on a backward clock -/

/-- C7 counterexample: with the clock one second behind `lastConsume`
(`speed` 500 B/s, capacity 300), the refill step yields capacity −200: the
refill is negative, not zero, and the capacity decreases (the `Consume` call
returns that decreased capacity in its rejected state).  This refutes the
claim that the refill never decreases capacity. -/
theorem refill_negative_cx :
    TokenBucket.refillCap ⟨500, 300, 1000, 100000000, 5000000000⟩ 4000000000
      = -200 ∧
    (TokenBucket.Consume ⟨500, 300, 1000, 100000000, 5000000000⟩
      4000000000 10).1.capacity = -200 ∧
    ¬ (300 : Int) ≤ -200 := by decide

/-- C7 amended: the refilled capacity is always capped at `maxCapacity`, and
it never decreases below `min capacity maxCapacity` when the clock has not
moved backward (and speed is nonnegative); on a backward clock the refill is
negative and the capacity genuinely decreases. -/
theorem refill_capped_and_forward_monotone (tb : TokenBucket) (nowNs : Int)
    (hs : 0 ≤ tb.speed) (hc : tb.lastConsumeNs ≤ nowNs) :
    TokenBucket.refillCap tb nowNs ≤ tb.maxCapacity ∧
    min tb.capacity tb.maxCapacity ≤ TokenBucket.refillCap tb nowNs := by
  have h1 : 0 ≤ Int.tdiv (nowNs - tb.lastConsumeNs) 1000000 :=
    Int.tdiv_nonneg (by omega) (by norm_num)
  have h2 : 0 ≤ Int.tdiv
      (Int.tdiv (nowNs - tb.lastConsumeNs) 1000000 * tb.speed) 1000 :=
    Int.tdiv_nonneg (mul_nonneg h1 hs) (by norm_num)
  simp only [TokenBucket.refillCap]
  constructor
  · split <;> omega
  · split <;> omega

theorem refill_capped_and_forward_monotone_witness :
    (0 : Int) ≤ 2 ∧ (0 : Int) ≤ 3000000 ∧
    (TokenBucket.refillCap ⟨2, 5, 10, 0, 0⟩ 3000000 ≤ 10 ∧
     min (5 : Int) 10 ≤ TokenBucket.refillCap ⟨2, 5, 10, 0, 0⟩ 3000000) :=
  ⟨by decide, by decide,
    refill_capped_and_forward_monotone ⟨2, 5, 10, 0, 0⟩ 3000000
      (by decide) (by decide)⟩

/-! ### C8: a rejected `Consume` still keeps the refill -/

/-- C8 counterexample: a rejected `Consume` does not leave the bucket exactly
as before the call — the refill performed before the rejection persists (here
capacity goes from 0 to 1 even though the call returns false). -/
theorem consume_reject_state_changed_cx :
    TokenBucket.Consume ⟨1, 0, 100, 0, 0⟩ 1000000000 100
      = (⟨1, 1, 100, 0, 0⟩, false) ∧
    (⟨1, 1, 100, 0, 0⟩ : TokenBucket) ≠ ⟨1, 0, 100, 0, 0⟩ := by decide

/-- C8 amended: on the reject path `Consume` returns false without consuming:
`lastConsume` is untouched and nothing is deducted — but the capacity does
retain the refill computed at the top of the call. -/
theorem consume_reject_no_consume (tb : TokenBucket) (nowNs n : Int)
    (hs : ¬ tb.speed = 0) (hfit : ¬ n ≤ TokenBucket.refillCap tb nowNs)
    (hto : tb.timeoutNs < TokenBucket.sleepNs tb nowNs n) :
    (TokenBucket.Consume tb nowNs n).2 = false ∧
    (TokenBucket.Consume tb nowNs n).1.lastConsumeNs = tb.lastConsumeNs ∧
    (TokenBucket.Consume tb nowNs n).1.capacity =
      TokenBucket.refillCap tb nowNs := by
  simp [TokenBucket.Consume, hs, hfit, hto]

theorem consume_reject_no_consume_witness :
    ¬ (⟨1, 0, 100, 0, 0⟩ : TokenBucket).speed = 0 ∧
    ¬ (100 : Int) ≤ TokenBucket.refillCap ⟨1, 0, 100, 0, 0⟩ 1000000000 ∧
    (⟨1, 0, 100, 0, 0⟩ : TokenBucket).timeoutNs <
      TokenBucket.sleepNs ⟨1, 0, 100, 0, 0⟩ 1000000000 100 ∧
    ((TokenBucket.Consume ⟨1, 0, 100, 0, 0⟩ 1000000000 100).2 = false ∧
     (TokenBucket.Consume ⟨1, 0, 100, 0, 0⟩ 1000000000 100).1.lastConsumeNs
       = (⟨1, 0, 100, 0, 0⟩ : TokenBucket).lastConsumeNs ∧
     (TokenBucket.Consume ⟨1, 0, 100, 0, 0⟩ 1000000000 100).1.capacity =
       TokenBucket.refillCap ⟨1, 0, 100, 0, 0⟩ 1000000000) :=
  ⟨by decide, by decide, by decide,
    consume_reject_no_consume ⟨1, 0, 100, 0, 0⟩ 1000000000 100
      (by decide) (by decide) (by decide)⟩

/-! ### C9: `Consume(0)` on reachable states -/

/-- C9 counterexample: a reachable state (built by `NewTokenBucket
"1000x10/1000000"` at time 0, a blocking consume of 10000 bytes at time 0
that advances `lastConsume` to the 10-second mark, and an overlapping rejected
consume at the 1-second mark that drives the capacity to −9000) on which
`Consume(0)` at the 1.5-second mark returns false.  This refutes the claim
that `Consume(0)` succeeds in every reachable state. -/
theorem consume_zero_reachable_false_cx :
    ReachedTB ⟨1000, -9000, 1000000, 10000000000, 10000000000⟩ 1000000000 ∧
    (TokenBucket.Consume ⟨1000, -9000, 1000000, 10000000000, 10000000000⟩
      1500000000 0).2 = false := by
  constructor
  · have h0 : ReachedTB (NewTokenBucket 1000 10 1000000 0) 0 :=
      ReachedTB.init 1000 10 1000000 0
    have h1 := ReachedTB.step 0 10000 h0 le_rfl
    have e1 : (TokenBucket.Consume (NewTokenBucket 1000 10 1000000 0)
        0 10000).1 = ⟨1000, 0, 1000000, 10000000000, 10000000000⟩ := by decide
    rw [e1] at h1
    have h2 := ReachedTB.step 1000000000 1000000 h1 (by norm_num)
    have e2 : (TokenBucket.Consume
        ⟨1000, 0, 1000000, 10000000000, 10000000000⟩ 1000000000 1000000).1
        = ⟨1000, -9000, 1000000, 10000000000, 10000000000⟩ := by decide
    rw [e2] at h2
    exact h2
  · decide

/-- C9 amended: `Consume(0)` does return true whenever the speed is zero or
the post-refill capacity is nonnegative — in particular in every state whose
bookkeeping clock is not ahead of the observation instant; only the negative
capacities produced by overlapping blocking consumes can make it fail. -/
theorem consume_zero_nonneg_true (tb : TokenBucket) (nowNs : Int)
    (h : tb.speed = 0 ∨ 0 ≤ TokenBucket.refillCap tb nowNs) :
    (TokenBucket.Consume tb nowNs 0).2 = true := by
  rcases h with h | h
  · simp [TokenBucket.Consume, h]
  · by_cases hs : tb.speed = 0
    · simp [TokenBucket.Consume, hs]
    · simp [TokenBucket.Consume, hs, h]

theorem consume_zero_nonneg_true_witness :
    ((⟨1000, -9000, 1000000, 10000000000, 10000000000⟩ :
        TokenBucket).speed = 0 ∨
      (0 : Int) ≤ TokenBucket.refillCap
        ⟨1000, -9000, 1000000, 10000000000, 10000000000⟩ 20000000000) ∧
    (TokenBucket.Consume ⟨1000, -9000, 1000000, 10000000000, 10000000000⟩
      20000000000 0).2 = true :=
  ⟨Or.inr (by decide),
    consume_zero_nonneg_true _ 20000000000 (Or.inr (by decide))⟩

/-! ### C10: a fresh bucket holds no tokens -/

/-- C10: a bucket fresh out of `NewTokenBucket` with positive speed has
capacity 0, so an immediate `Consume` of a positive amount at the
construction instant cannot take the instant-success path: it either is
rejected (leaving `lastConsume` untouched) or blocks, draining to zero and
advancing the bookkeeping clock by the computed deficit wait. -/
theorem new_bucket_no_instant_success (speed waitSec maxCap t0 n : Int)
    (hs : 0 < speed) (hn : 0 < n) :
    ((TokenBucket.Consume (NewTokenBucket speed waitSec maxCap t0) t0 n).2
        = false ∧
      (TokenBucket.Consume (NewTokenBucket speed waitSec maxCap t0) t0
        n).1.lastConsumeNs = t0 ∧
      (TokenBucket.Consume (NewTokenBucket speed waitSec maxCap t0) t0
        n).1.capacity =
        TokenBucket.refillCap (NewTokenBucket speed waitSec maxCap t0) t0) ∨
    ((TokenBucket.Consume (NewTokenBucket speed waitSec maxCap t0) t0 n).2
        = true ∧
      (TokenBucket.Consume (NewTokenBucket speed waitSec maxCap t0) t0
        n).1.capacity = 0 ∧
      (TokenBucket.Consume (NewTokenBucket speed waitSec maxCap t0) t0
        n).1.lastConsumeNs =
        t0 + TokenBucket.sleepNs (NewTokenBucket speed waitSec maxCap t0)
          t0 n) := by
  have hrc : TokenBucket.refillCap (NewTokenBucket speed waitSec maxCap t0) t0
      ≤ 0 := by
    simp only [TokenBucket.refillCap, NewTokenBucket]
    simp only [Int.sub_self, Int.zero_tdiv, Int.zero_mul, Int.add_zero]
    split <;> omega
  have hfit : ¬ n ≤ TokenBucket.refillCap
      (NewTokenBucket speed waitSec maxCap t0) t0 := by omega
  have hs' : ¬ (NewTokenBucket speed waitSec maxCap t0).speed = 0 := by
    simp only [NewTokenBucket]
    omega
  by_cases hto : (NewTokenBucket speed waitSec maxCap t0).timeoutNs <
      TokenBucket.sleepNs (NewTokenBucket speed waitSec maxCap t0) t0 n
  · left
    simp only [TokenBucket.Consume, if_neg hs', if_neg hfit, if_pos hto]
    simp [NewTokenBucket]
  · right
    simp only [TokenBucket.Consume, if_neg hs', if_neg hfit, if_neg hto]
    simp

/-! ### Walk lemmas shared by the traversal claims -/

theorem length_insertDesc (x : FollowingState) (l : List FollowingState) :
    (insertDesc x l).length = l.length + 1 := by
  induction l with
  | nil => rfl
  | cons y ys ih =>
      rw [insertDesc]
      split
      · simp
      · simp [ih]

theorem length_sortDesc (l : List FollowingState) :
    (sortDesc l).length = l.length := by
  induction l with
  | nil => rfl
  | cons y ys ih => simp [sortDesc, List.foldr] at ih ⊢; rw [length_insertDesc, ih]

theorem followWalk_step (arts : ArticleStore) (n f : Nat) (cursor : String)
    (res : List FollowingState) (a : Article) (h1 : res.length < n)
    (h2 : strStarts cursor "u/" = true) (ha : getKV arts cursor = some a) :
    followWalk arts n (f + 1) cursor res =
      followWalk arts n f a.nextID (res ++ entriesOf a) := by
  simp only [followWalk, if_pos h1, h2, if_pos, ha]

theorem followWalk_stop_missing (arts : ArticleStore) (n f : Nat)
    (cursor : String) (res : List FollowingState) (h1 : res.length < n)
    (h2 : strStarts cursor "u/" = true) (hb : getKV arts cursor = none) :
    followWalk arts n (f + 1) cursor res = (res, cursor) := by
  simp only [followWalk, if_pos h1, h2, if_pos, hb]

theorem followWalk_length_le (arts : ArticleStore) (n : Nat)
    (h : ∀ p ∈ arts, (entriesOf p.2).length ≤ 1) :
    ∀ fuel cursor res, res.length ≤ n →
      (followWalk arts n fuel cursor res).1.length ≤ n := by
  intro fuel
  induction fuel with
  | zero =>
      intro cursor res hr
      simpa [followWalk] using hr
  | succ f ih =>
      intro cursor res hr
      simp only [followWalk]
      by_cases h1 : res.length < n
      · rw [if_pos h1]
        by_cases h2 : strStarts cursor "u/" = true
        · rw [if_pos h2]
          cases hga : getKV arts cursor with
          | none => simpa using hr
          | some a =>
              simp only []
              apply ih
              have hb : (entriesOf a).length ≤ 1 := h (cursor, a) (getKV_mem hga)
              simp only [List.length_append]
              omega
        · rw [if_neg h2]
          simpa using hr
      · rw [if_neg h1]
        simpa using hr

/-! ### C4: the collected-row bound of the walk -/

/-- Store for the C4 counterexample: a single follow node carrying two
well-formed extras bindings. -/
def c4arts : ArticleStore :=
  [("u/a/follow/b",
    { id := "u/a/follow/b", nextID := "", cmd := "follow",
      extras := [("b", "true,1"), ("c", "true,2")], createTime := 1,
      media := "" })]

/-- C4 counterexample: asking `GetFollowingList` for at most 1 entry on a
chain whose head node expands to two rows returns 2 rows — the walk only
checks the bound before loading a node, so a multi-binding follow node
overshoots it.  This refutes the claim that at most `n` entries are
collected. -/
theorem getFollowingList_overshoot_cx :
    ¬ (GetFollowingList c4arts 5 "F:a" "u/a/follow/b" 1).1.length ≤ 1 := by
  decide

/-- C4 amended: the walk collects at most `n` rows provided every stored node
expands to at most one row (single-binding follow nodes and all non-follow
nodes); a follow node with `k` bindings can push the total to `n - 1 + k`. -/
theorem getFollowingList_length_bound (arts : ArticleStore) (fuel : Nat)
    (chain cursor : String) (n : Nat)
    (h : ∀ p ∈ arts, (entriesOf p.2).length ≤ 1) :
    (GetFollowingList arts fuel chain cursor n).1.length ≤ n := by
  unfold GetFollowingList
  cases hm : (if cursor = "" then (getKV arts chain).map Article.nextID
      else some cursor) with
  | none => simp
  | some c =>
      simp only []
      rw [length_sortDesc]
      exact followWalk_length_le arts n h fuel c [] (by simp)

/-- Store for the C4 witness: every node carries a single binding. -/
def c4warts : ArticleStore :=
  [("u/a/follow/b",
    { id := "u/a/follow/b", nextID := "u/a/follow/c", cmd := "follow",
      extras := [("b", "true,1")], createTime := 1, media := "" }),
   ("u/a/follow/c",
    { id := "u/a/follow/c", nextID := "", cmd := "follow",
      extras := [("c", "true,2")], createTime := 2, media := "" })]

theorem getFollowingList_length_bound_witness :
    (∀ p ∈ c4warts, (entriesOf p.2).length ≤ 1) ∧
    (GetFollowingList c4warts 5 "F:a" "u/a/follow/b" 1).1.length ≤ 1 :=
  ⟨by decide, getFollowingList_length_bound c4warts 5 "F:a" "u/a/follow/b" 1
    (by decide)⟩

/-! ### C5: broken-chain tolerance -/

/-- C5: when the record at the current cursor cannot be loaded mid-walk
(`A → B → …` with `B` deleted), `GetFollowingList` stops there and returns
the rows collected so far — exactly `A`'s rows — with the failing cursor `B`
as the resume position, rather than failing the whole request. -/
theorem getFollowingList_broken_chain (arts : ArticleStore) (fuel n : Nat)
    (chain aId : String) (a : Article) (e : FollowingState)
    (ha : getKV arts aId = some a) (hu : strStarts aId "u/" = true)
    (hnb : strStarts a.nextID "u/" = true)
    (hb : getKV arts a.nextID = none)
    (he : entriesOf a = [e]) (hn : 2 ≤ n) (hf : 2 ≤ fuel) :
    GetFollowingList arts fuel chain aId n = ([e], a.nextID) := by
  obtain ⟨f, rfl⟩ : ∃ f, fuel = f + 2 := ⟨fuel - 2, by omega⟩
  have hne : ¬ aId = "" := by
    intro h0
    rw [h0] at hu
    exact absurd hu (by decide)
  unfold GetFollowingList
  rw [if_neg hne]
  simp only []
  rw [show f + 2 = (f + 1) + 1 from rfl,
    followWalk_step arts n (f + 1) aId [] a (by simp only [List.length_nil]; omega) hu ha]
  simp only [List.nil_append, he]
  rw [followWalk_stop_missing arts n f a.nextID [e] (by simp only [List.length_singleton]; omega) hnb hb]
  simp [sortDesc, insertDesc]

/-- Store for the C5 witness: `u/x/follow/p → u/x/follow/q → u/x/follow/r`
with the middle record `u/x/follow/q` deleted (`r`'s record still exists but
is unreachable). -/
def c5arts : ArticleStore :=
  [("u/x/follow/p",
    { id := "u/x/follow/p", nextID := "u/x/follow/q", cmd := "follow",
      extras := [("p", "true,9")], createTime := 9, media := "" }),
   ("u/x/follow/r",
    { id := "u/x/follow/r", nextID := "", cmd := "follow",
      extras := [("r", "true,1")], createTime := 1, media := "" })]

theorem getFollowingList_broken_chain_witness :
    getKV c5arts "u/x/follow/p" =
      some { id := "u/x/follow/p", nextID := "u/x/follow/q", cmd := "follow",
             extras := [("p", "true,9")], createTime := 9, media := "" } ∧
    getKV c5arts "u/x/follow/q" = none ∧
    GetFollowingList c5arts 4 "F:x" "u/x/follow/p" 5 =
      ([{ id := "p", time := 9, followed := true, revFollowed := false,
          liked := false, blocked := false }], "u/x/follow/q") :=
  ⟨by decide, by decide,
    getFollowingList_broken_chain c5arts 4 5 "F:x" "u/x/follow/p"
      { id := "u/x/follow/p", nextID := "u/x/follow/q", cmd := "follow",
        extras := [("p", "true,9")], createTime := 9, media := "" }
      { id := "p", time := 9, followed := true, revFollowed := false,
        liked := false, blocked := false }
      (by decide) (by decide) (by decide) (by decide) (by decide)
      (by decide) (by decide)⟩

theorem new_bucket_no_instant_success_witness :
    (0 : Int) < 1 ∧ (0 : Int) < 5 ∧
    (((TokenBucket.Consume (NewTokenBucket 1 1 10 0) 0 5).2 = false ∧
      (TokenBucket.Consume (NewTokenBucket 1 1 10 0) 0 5).1.lastConsumeNs
        = 0 ∧
      (TokenBucket.Consume (NewTokenBucket 1 1 10 0) 0 5).1.capacity =
        TokenBucket.refillCap (NewTokenBucket 1 1 10 0) 0) ∨
     ((TokenBucket.Consume (NewTokenBucket 1 1 10 0) 0 5).2 = true ∧
      (TokenBucket.Consume (NewTokenBucket 1 1 10 0) 0 5).1.capacity = 0 ∧
      (TokenBucket.Consume (NewTokenBucket 1 1 10 0) 0 5).1.lastConsumeNs =
        0 + TokenBucket.sleepNs (NewTokenBucket 1 1 10 0) 0 5)) :=
  ⟨by decide, by decide,
    new_bucket_no_instant_success 1 1 10 0 5 (by decide) (by decide)⟩

/-! ### Preservation lemmas for the follow side effects -/

theorem insertChainOrUpdate_getKV (arts : ArticleStore)
    (aid chainid toU cmd : String) (value : Bool) (now : Int) (k : String)
    (arts' : ArticleStore) (h1 : ¬ aid = k) (h2 : ¬ chainid = k)
    (h : (insertChainOrUpdate arts aid chainid toU cmd value now).2
      = .ok arts') :
    getKV arts' k = getKV arts k := by
  unfold insertChainOrUpdate at h
  cases hga : getKV arts aid with
  | some a =>
      simp only [doUpdateArticle, hga, Except.ok.injEq] at h
      rw [← h, getKV_setKV_ne _ _ h1]
  | none =>
      simp only [doUpdateArticle, hga, doInsertArticle, Option.isSome_none,
        Bool.false_eq_true, if_false] at h
      cases hgr : getKV arts chainid with
      | some root =>
          simp only [hgr, Except.ok.injEq] at h
          rw [← h, getKV_setKV_ne _ _ h2, getKV_setKV_ne _ _ h1]
      | none =>
          simp only [hgr, Except.ok.injEq] at h
          rw [← h, getKV_setKV_ne _ _ h2, getKV_setKV_ne _ _ h1]

theorem fromFollowToNotifyTo_articles (st : State) (frm toU : String)
    (following : Bool) (now : Int) (k : String)
    (h1 : ¬ makeFollowedID toU frm = k) (h2 : ¬ followerRootID toU = k) :
    getKV (fromFollowToNotifyTo st frm toU following now).articles k =
      getKV st.articles k := by
  unfold fromFollowToNotifyTo
  cases hdu : doUpdateUser st.users toU (.incDecFollowers following) with
  | error e => rfl
  | ok us =>
      simp only []
      cases hic : (insertChainOrUpdate st.articles (makeFollowedID toU frm)
          (followerRootID toU) frm CmdFollowed following now).2 with
      | error e => rfl
      | ok arts =>
          exact insertChainOrUpdate_getKV _ _ _ _ _ _ _ _ _ h1 h2 hic

theorem applyFollowEffects_articles (st : State) (frm toU : String)
    (following : Bool) (now : Int) (k : String)
    (h1 : ¬ makeFollowedID toU frm = k) (h2 : ¬ followerRootID toU = k) :
    getKV (applyFollowEffects st frm toU following now).articles k =
      getKV st.articles k := by
  unfold applyFollowEffects
  by_cases hh : strStarts toU "#" = true
  · rw [if_pos hh]
  · rw [if_neg hh]
    exact fromFollowToNotifyTo_articles _ _ _ _ _ _ h1 h2

/-! ### C3: a no-op follow call still rewrites the stored timestamp -/

/-- Store for the C3 counterexample: alice already follows bob since unix
time 100. -/
def c3store : State :=
  { articles := [(makeFollowID "alice" "bob",
      { id := "u/alice/follow/bob", nextID := "", cmd := "follow",
        extras := [("bob", "true,100")], createTime := 100, media := "" })],
    users := [] }

/-- C3 counterexample: re-applying the already-stored value at unix time 200
is detected as a no-op (`updated = false`, no error), yet the stored extras
value becomes `true,200` — the timestamp of the first call's transition is
NOT kept.  This refutes the claim that an unchanged call leaves the stored
extras value unchanged. -/
theorem followUser_noop_overwrites_timestamp_cx :
    (FollowUser c3store 200 "alice" "bob" true).updated = false ∧
    (FollowUser c3store 200 "alice" "bob" true).err = none ∧
    ((getKV (FollowUser c3store 200 "alice" "bob" true).state.articles
        (makeFollowID "alice" "bob")).bind
      fun a => getKV a.extras "bob") = some "true,200" ∧
    ¬ ("true,200" : String) = "true,100" := by decide

/-- C3 amended: every successful non-insert `FollowUser` call overwrites the
edge's stored extras value with the new boolean and the new call's timestamp,
whether or not the boolean changed; only the side-effect dispatch (the
`updated` flag) distinguishes a real change. -/
theorem followUser_update_overwrites_value (st : State) (now : Int)
    (frm toU : String) (following : Bool) (a : Article)
    (hb : IsBlocking st.articles toU frm = false)
    (ha : getKV st.articles (makeFollowID frm toU) = some a) :
    ∃ a', getKV (FollowUser st now frm toU following).state.articles
        (makeFollowID frm toU) = some a' ∧
      getKV a'.extras toU = some (fmtBool following ++ "," ++ toString now) := by
  unfold FollowUser
  rw [hb, Bool.and_false, if_neg (by simp)]
  simp only [doUpdateArticle, ha]
  split
  · rw [applyFollowEffects_articles _ _ _ _ _ _
      (fun e => followID_ne_followedID frm toU e.symm)
      (fun e => followID_ne_followerRoot frm toU toU e.symm)]
    exact ⟨_, getKV_setKV_same _ _ _, getKV_setKV_same _ _ _⟩
  · exact ⟨_, getKV_setKV_same _ _ _, getKV_setKV_same _ _ _⟩

theorem followUser_update_overwrites_value_witness :
    IsBlocking c3store.articles "bob" "alice" = false ∧
    getKV c3store.articles (makeFollowID "alice" "bob") =
      some { id := "u/alice/follow/bob", nextID := "", cmd := "follow",
             extras := [("bob", "true,100")], createTime := 100,
             media := "" } ∧
    ∃ a', getKV (FollowUser c3store 200 "alice" "bob" true).state.articles
        (makeFollowID "alice" "bob") = some a' ∧
      getKV a'.extras "bob" =
        some (fmtBool true ++ "," ++ toString (200 : Int)) :=
  ⟨by decide, by decide,
    followUser_update_overwrites_value c3store 200 "alice" "bob" true
      { id := "u/alice/follow/bob", nextID := "", cmd := "follow",
        extras := [("bob", "true,100")], createTime := 100, media := "" }
      (by decide) (by decide)⟩

/-! ### C6: the extras encoding of toggle-edge writes -/

/-- Store for the C6 counterexample: both users exist, no edges yet. -/
def c6store : State :=
  { articles := [], users := [("alice", ⟨0, 0, 0⟩), ("bob", ⟨2, 3, 0⟩)] }

/-- C6 counterexample: `FollowUser("alice","bob",true)` also writes the
reverse `followed` toggle edge through `insertChainOrUpdate`, and that edge's
stored extras value is the bare string `true` — no comma, no timestamp — so
it does not match the claimed `"<lowercase-bool>,<decimal-unix-seconds>"`
form (which the follow edge itself does satisfy). -/
theorem toggle_extras_bare_bool_cx :
    ((getKV (FollowUser c6store 5 "alice" "bob" true).state.articles
        (makeFollowedID "bob" "alice")).bind
      fun a => getKV a.extras "followed") = some "true" ∧
    specToggleEncoding "true" = false ∧
    ((getKV (FollowUser c6store 5 "alice" "bob" true).state.articles
        (makeFollowID "alice" "bob")).bind
      fun a => getKV a.extras "bob") = some "true,5" ∧
    specToggleEncoding "true,5" = true := by decide

/-- C6 amended: only follow edges store the
`"<lowercase-bool>,<decimal-unix-seconds>"` encoding; the followed, block and
like toggle edges written through `insertChainOrUpdate` store the bare
lowercase boolean with no timestamp, which never matches the claimed
encoding. -/
theorem insertChain_bare_bool_encoding (arts : ArticleStore)
    (aid chainid toU cmd : String) (value : Bool) (now : Int)
    (h0 : getKV arts aid = none) (h1 : ¬ chainid = aid) (h2 : ¬ cmd = "to") :
    ∃ arts', (insertChainOrUpdate arts aid chainid toU cmd value now).2
        = .ok arts' ∧
      ((getKV arts' aid).bind fun a => getKV a.extras cmd)
        = some (fmtBool value) ∧
      specToggleEncoding (fmtBool value) = false := by
  unfold insertChainOrUpdate
  simp only [doUpdateArticle, h0, doInsertArticle, Option.isSome_none,
    Bool.false_eq_true, if_false]
  cases hgr : getKV arts chainid with
  | some root =>
      refine ⟨_, rfl, ?_, ?_⟩
      · rw [getKV_setKV_ne _ _ h1, getKV_setKV_same]
        show getKV [("to", toU), (cmd, fmtBool value)] cmd = _
        simp only [getKV]
        rw [if_neg (Ne.symm h2)]
        simp
      · cases value <;> decide
  | none =>
      refine ⟨_, rfl, ?_, ?_⟩
      · rw [getKV_setKV_ne _ _ h1, getKV_setKV_same]
        show getKV [("to", toU), (cmd, fmtBool value)] cmd = _
        simp only [getKV]
        rw [if_neg (Ne.symm h2)]
        simp
      · cases value <;> decide

theorem insertChain_bare_bool_encoding_witness :
    getKV ([] : ArticleStore) (makeBlockID "a" "b") = none ∧
    ¬ blacklistRootID "a" = makeBlockID "a" "b" ∧
    ¬ CmdBlock = "to" ∧
    ∃ arts', (insertChainOrUpdate [] (makeBlockID "a" "b")
        (blacklistRootID "a") "b" CmdBlock true 3).2 = .ok arts' ∧
      ((getKV arts' (makeBlockID "a" "b")).bind
        fun a => getKV a.extras CmdBlock) = some (fmtBool true) ∧
      specToggleEncoding (fmtBool true) = false :=
  ⟨by decide, by decide, by decide,
    insertChain_bare_bool_encoding [] (makeBlockID "a" "b")
      (blacklistRootID "a") "b" CmdBlock true 3
      (by decide) (by decide) (by decide)⟩


theorem followedID_ne_followingRoot (a b c : String) :
    makeFollowedID a b ≠ followingRootID c :=
  strStarts_ne (by rw [strStarts_makeFollowedID, strStarts_root_F]; simp)

theorem followedID_ne_followerRoot (a b c : String) :
    makeFollowedID a b ≠ followerRootID c :=
  strStarts_ne (by rw [strStarts_makeFollowedID, strStarts_root_W]; simp)

theorem followerRoot_ne_followingRoot (b c : String) :
    followerRootID b ≠ followingRootID c := by
  intro e
  have h := congrArg String.data e
  have h1 : ("W:" : String).data = ['W', ':'] := rfl
  have h2 : ("F:" : String).data = ['F', ':'] := rfl
  simp only [followerRootID, followingRootID, String.data_append, h1, h2] at h
  simp at h

theorem strStarts_trueComma (s : String) :
    strStarts (("true" : String) ++ "," ++ s) "true" = true := by
  have h1 : (("true" : String) ++ ",").data = ['t', 'r', 'u', 'e', ','] := rfl
  have h2 : ("true" : String).data = ['t', 'r', 'u', 'e'] := rfl
  simp [strStarts, String.data_append, h1, h2, listStarts]

/-- The deferred side effects of a successful real-change follow: the two
counters are bumped exactly once and article keys other than the reverse-edge
node and the follower-chain root are untouched. -/
theorem effects_spec (arts1 : ArticleStore) (us : UserStore) (t1 : Int)
    (a b : String) (ua ub : User)
    (hab : ¬ a = b) (hhash : strStarts b "#" = false)
    (hua : getKV us a = some ua) (hub : getKV us b = some ub) :
    ∃ artsF, applyFollowEffects { articles := arts1, users := us } a b true t1 =
      { articles := artsF,
        users := (setKV (setKV us a
          { ua with followings := ua.followings + 1 }) b
          { ub with followers := ub.followers + 1 }) } ∧
      ∀ k, ¬ makeFollowedID b a = k → ¬ followerRootID b = k →
        getKV artsF k = getKV arts1 k := by
  unfold applyFollowEffects
  simp only [doUpdateUser, hua]
  rw [if_neg (by rw [hhash]; simp)]
  unfold fromFollowToNotifyTo
  have hub2 : getKV (setKV us a (applyDelta ua (UserDelta.incDecFollowings true))) b
      = some ub := by
    rw [getKV_setKV_ne _ _ hab]; exact hub
  simp only [doUpdateUser, hub2]
  cases hic : (insertChainOrUpdate arts1 (makeFollowedID b a)
      (followerRootID b) a CmdFollowed true t1).2 with
  | error e =>
      refine ⟨arts1, ?_, fun k h1 h2 => rfl⟩
      simp only [hic]
      rfl
  | ok arts =>
      refine ⟨arts, ?_, fun k h1 h2 =>
        insertChainOrUpdate_getKV _ _ _ _ _ _ _ _ _ h1 h2 hic⟩
      simp only [hic]
      rfl

/-- First `FollowUser(a,b,true)` call on a pair with no prior follow edge:
it succeeds through the insert path, reports a real change, bumps both
counters once, stores the follow node, and leaves block-edge keys alone. -/
theorem followUser_first (st : State) (t1 : Int) (a b : String) (ua ub : User)
    (hab : ¬ a = b) (hhash : strStarts b "#" = false)
    (hnof : getKV st.articles (makeFollowID a b) = none)
    (hnb : IsBlocking st.articles b a = false)
    (hua : getKV st.users a = some ua) (hub : getKV st.users b = some ub) :
    ∃ artsF nx,
      FollowUser st t1 a b true =
        { state := { articles := artsF,
                     users := (setKV (setKV st.users a
                       { ua with followings := ua.followings + 1 }) b
                       { ub with followers := ub.followers + 1 }) },
          err := none, updated := true } ∧
      getKV artsF (makeFollowID a b) =
        some { id := makeFollowID a b, nextID := nx, cmd := CmdFollow,
               extras := [(b, fmtBool true ++ "," ++ toString t1)],
               createTime := t1, media := "" } ∧
      getKV artsF (makeBlockID b a) = getKV st.articles (makeBlockID b a) := by
  have n1 : ¬ followingRootID a = makeFollowID a b :=
    fun e => followID_ne_followingRoot a b a e.symm
  have n2 : ¬ followingRootID a = makeBlockID b a :=
    fun e => blockID_ne_followingRoot b a a e.symm
  have n3 : ¬ makeFollowID a b = makeBlockID b a :=
    fun e => blockID_ne_followID a b e.symm
  have n4 : ¬ makeFollowedID b a = makeFollowID a b :=
    fun e => followID_ne_followedID a b e.symm
  have n5 : ¬ makeFollowedID b a = makeBlockID b a :=
    fun e => blockID_ne_followedID a b e.symm
  have n6 : ¬ followerRootID b = makeFollowID a b :=
    fun e => followID_ne_followerRoot a b b e.symm
  have n7 : ¬ followerRootID b = makeBlockID b a :=
    fun e => blockID_ne_followerRoot b a b e.symm
  unfold FollowUser
  rw [hnb, Bool.and_false, if_neg (by simp)]
  simp only [doUpdateArticle, hnof]
  unfold doInsertArticle
  simp only [hnof, Option.isSome_none, Bool.false_eq_true, if_false]
  cases hgr : getKV st.articles (followingRootID a) with
  | some root =>
      simp only [hgr]
      obtain ⟨artsF, he, hp⟩ := effects_spec
        (setKV (setKV st.articles (makeFollowID a b)
          { id := makeFollowID a b, nextID := root.nextID, cmd := CmdFollow,
            extras := [(b, fmtBool true ++ "," ++ toString t1)],
            createTime := t1, media := "" })
          (followingRootID a)
          { id := root.id, nextID := makeFollowID a b, cmd := root.cmd,
            extras := root.extras, createTime := root.createTime,
            media := root.media })
        st.users t1 a b ua ub hab hhash hua hub
      rw [he]
      refine ⟨artsF, root.nextID, rfl, ?_, ?_⟩
      · rw [hp _ n4 n6, getKV_setKV_ne _ _ n1, getKV_setKV_same]
      · rw [hp _ n5 n7, getKV_setKV_ne _ _ n2, getKV_setKV_ne _ _ n3]
  | none =>
      simp only [hgr]
      obtain ⟨artsF, he, hp⟩ := effects_spec
        (setKV (setKV st.articles (makeFollowID a b)
          { id := makeFollowID a b, nextID := "", cmd := CmdFollow,
            extras := [(b, fmtBool true ++ "," ++ toString t1)],
            createTime := t1, media := "" })
          (followingRootID a)
          { id := followingRootID a, nextID := makeFollowID a b, cmd := "",
            extras := [], createTime := t1, media := "" })
        st.users t1 a b ua ub hab hhash hua hub
      rw [he]
      refine ⟨artsF, "", rfl, ?_, ?_⟩
      · rw [hp _ n4 n6, getKV_setKV_ne _ _ n1, getKV_setKV_same]
      · rw [hp _ n5 n7, getKV_setKV_ne _ _ n2, getKV_setKV_ne _ _ n3]


/-! ### C2: follow is idempotent and counters move exactly once -/

/-- C2: with no prior follow edge, two successive `FollowUser(a,b,true)`
calls report a real change then no change (`updated` is true then false), and
the following/follower counters are bumped exactly once across the two
calls — never double-incremented. -/
theorem followUser_idempotent_once (st : State) (t1 t2 : Int) (a b : String)
    (ua ub : User)
    (hab : ¬ a = b) (hhash : strStarts b "#" = false)
    (hnof : getKV st.articles (makeFollowID a b) = none)
    (hnb : IsBlocking st.articles b a = false)
    (hua : getKV st.users a = some ua) (hub : getKV st.users b = some ub) :
    (FollowUser st t1 a b true).updated = true ∧
    (FollowUser st t1 a b true).err = none ∧
    (FollowUser (FollowUser st t1 a b true).state t2 a b true).updated
      = false ∧
    (FollowUser (FollowUser st t1 a b true).state t2 a b true).err = none ∧
    getKV (FollowUser (FollowUser st t1 a b true).state t2 a b
        true).state.users a = some { ua with followings := ua.followings + 1 } ∧
    getKV (FollowUser (FollowUser st t1 a b true).state t2 a b
        true).state.users b = some { ub with followers := ub.followers + 1 } := by
  obtain ⟨artsF, nx, hr1, hfid, hmb⟩ :=
    followUser_first st t1 a b ua ub hab hhash hnof hnb hua hub
  rw [hr1]
  have hnb2 : IsBlocking artsF b a = false := by
    unfold IsBlocking at hnb ⊢
    rw [hmb]
    exact hnb
  have hf : fmtBool true = "true" := rfl
  unfold FollowUser
  simp only [Bool.true_and, hnb2, Bool.false_eq_true, if_false]
  simp only [doUpdateArticle, hfid]
  simp only [getKV, if_pos rfl, if_true, Option.getD_some, hf,
    strStarts_trueComma, Bool.not_true, Bool.false_eq_true, if_false]
  refine ⟨trivial, trivial, trivial, trivial, ?_, ?_⟩
  · rw [if_neg (fun e => hab e.symm)]
  · simp

/-- Store for the C2 witness: both users exist, no edges. -/
def c2store : State :=
  { articles := [], users := [("alice", ⟨0, 0, 0⟩), ("bob", ⟨2, 3, 0⟩)] }

theorem followUser_idempotent_once_witness :
    ¬ ("alice" : String) = "bob" ∧
    strStarts "bob" "#" = false ∧
    getKV c2store.articles (makeFollowID "alice" "bob") = none ∧
    IsBlocking c2store.articles "bob" "alice" = false ∧
    getKV c2store.users "alice" = some ⟨0, 0, 0⟩ ∧
    getKV c2store.users "bob" = some ⟨2, 3, 0⟩ ∧
    ((FollowUser c2store 5 "alice" "bob" true).updated = true ∧
     (FollowUser c2store 5 "alice" "bob" true).err = none ∧
     (FollowUser (FollowUser c2store 5 "alice" "bob" true).state 9 "alice"
        "bob" true).updated = false ∧
     (FollowUser (FollowUser c2store 5 "alice" "bob" true).state 9 "alice"
        "bob" true).err = none ∧
     getKV (FollowUser (FollowUser c2store 5 "alice" "bob" true).state 9
        "alice" "bob" true).state.users "alice" = some ⟨0, 0 + 1, 0⟩ ∧
     getKV (FollowUser (FollowUser c2store 5 "alice" "bob" true).state 9
        "alice" "bob" true).state.users "bob" = some ⟨2 + 1, 3, 0⟩) :=
  ⟨by decide, by decide, by decide, by decide, by decide, by decide,
    followUser_idempotent_once c2store 5 9 "alice" "bob" ⟨0, 0, 0⟩ ⟨2, 3, 0⟩
      (by decide) (by decide) (by decide) (by decide) (by decide) (by decide)⟩

end Iis
